import Mathlib

/-!
Verification development for the `volumetric_mapping` package
(`volumetric_map_base/include/volumetric_map_base/world_base.h`).

`WorldBase` is the insertion dispatcher and default (empty-world) backend of a
volumetric-mapping pipeline.  The header in the repository carries the full
default backend (query operations, `setFree` / `setOccupied`, map center and
size, the weighing-function accessors, and the four default insertion hooks);
the bodies of the non-virtual dispatcher functions (`insertDisparityImage`,
`insertPointcloud`, `getQForCameras`, `generateQ`, `computeWeights`) live in a
compilation unit that is not part of the sources and are modelled here from the
specification, with a note on each such definition.

Conventions of the shallow embedding:
* `double` coordinates are modelled as rationals (`ℚ`); where the distinction
  between finite values, infinities and NaN matters (reprojection matrices,
  `getMapSize`) values live in `FVal`, an explicit IEEE-style extension of `ℚ`.
* the `std::shared_ptr<WeighingFunction>` member is an `Option WeighingFunction`
  (null pointer = `none`);
* a dispatcher call returns `Except IngestError (List HookCall)`: `.error`
  models the call aborting during ingestion validation, `.ok hooks` models a
  normal return that invoked exactly the backend hooks listed.
-/

set_option linter.unusedVariables false

namespace VolumetricMapping

/-- `Eigen::Vector3d`: a 3-vector of coordinates. -/
structure Vec3 where
  x : ℚ
  y : ℚ
  z : ℚ
deriving DecidableEq, Repr

/-- A homogeneous 4-vector, as produced by multiplying the reprojection matrix
with `(u, v, disparity, 1)`. -/
structure Vec4 where
  x : ℚ
  y : ℚ
  z : ℚ
  w : ℚ
deriving DecidableEq, Repr

/-- Dot product of two 4-vectors. -/
def Vec4.dot (a b : Vec4) : ℚ :=
  a.x * b.x + a.y * b.y + a.z * b.z + a.w * b.w

/-- A 4×4 matrix of rationals (`Eigen::Matrix4d` holding finite values), stored
by rows.  Used for the `Q` argument of disparity ingestion. -/
structure Mat4 where
  r0 : Vec4
  r1 : Vec4
  r2 : Vec4
  r3 : Vec4
deriving DecidableEq, Repr

/-- Matrix-vector product. -/
def Mat4.mulVec (m : Mat4) (v : Vec4) : Vec4 :=
  ⟨m.r0.dot v, m.r1.dot v, m.r2.dot v, m.r3.dot v⟩

/-- An IEEE-double-like value: a finite rational, one of the two infinities, or
NaN.  Lets the embedding state that a computed entry is a genuine finite number
rather than an overflow artefact. -/
inductive FVal where
  | finite (q : ℚ)
  | posInf
  | negInf
  | nan
deriving DecidableEq, Repr

/-- Whether an `FVal` is a finite number (neither an infinity nor NaN). -/
def FVal.isFinite : FVal → Bool
  | .finite _ => true
  | _ => false

/-- IEEE-style division of two finite values: a nonzero denominator gives the
exact quotient, a zero denominator gives a signed infinity (or NaN for 0/0). -/
def fdiv (a b : ℚ) : FVal :=
  if b ≠ 0 then FVal.finite (a / b)
  else if 0 < a then FVal.posInf
  else if a < 0 then FVal.negInf
  else FVal.nan

/-- A 3-vector of `FVal` entries; the return type of `getMapSize`, whose
components are `std::numeric_limits<double>::max()`. -/
structure FVec3 where
  x : FVal
  y : FVal
  z : FVal
deriving DecidableEq, Repr

/-- A row of four `FVal` entries. -/
structure FVec4 where
  x : FVal
  y : FVal
  z : FVal
  w : FVal
deriving DecidableEq, Repr

/-- A 4×4 matrix of `FVal` entries: the result type of `generateQ`, whose
entries may degenerate to infinities when the baseline is zero. -/
structure FMat4 where
  r0 : FVec4
  r1 : FVec4
  r2 : FVec4
  r3 : FVec4
deriving DecidableEq, Repr

/-- All four entries of a row are finite. -/
def FVec4.allFinite (v : FVec4) : Bool :=
  v.x.isFinite && v.y.isFinite && v.z.isFinite && v.w.isFinite

/-- All sixteen entries of the matrix are finite (no Infinity, no NaN). -/
def FMat4.allFinite (m : FMat4) : Bool :=
  m.r0.allFinite && m.r1.allFinite && m.r2.allFinite && m.r3.allFinite

/-- `std::numeric_limits<double>::max()`: the largest finite IEEE-754 binary64
value, `(2^53 - 1) * 2^971`. -/
def doubleMax : ℚ := (2 ^ 53 - 1) * 2 ^ 971

/-- `kindr::minimal::QuatTransformation`: a rigid-body sensor-to-world pose, a
unit-quaternion rotation plus a translation. -/
structure Transformation where
  rotation : Vec4
  translation : Vec3
deriving DecidableEq, Repr

/-- `WorldBase::CellStatus`: the tri-state occupancy vocabulary. -/
inductive CellStatus where
  | kFree
  | kOccupied
  | kUnknown
deriving DecidableEq, Repr

/-- A point of the canonical point field (sensor frame). -/
structure Point3 where
  x : ℚ
  y : ℚ
  z : ℚ
deriving DecidableEq, Repr

/-- `WeighingFunction`: strategy object mapping a raw measurement signal (a
disparity value, or a 3D point) to a scalar confidence weight. -/
structure WeighingFunction where
  weightOfDisparity : ℚ → ℚ
  weightOfPoint : Point3 → ℚ

/-- The state of a `WorldBase` object.  The default (empty-world) backend holds
no spatial structure; its only member is `weighing_function_`, the optionally
attached shared weighing strategy (`none` models the null `shared_ptr`). -/
structure WorldBase where
  weighing_function : Option WeighingFunction

/-- `WorldBase::WorldBase()`: the default constructor; the `shared_ptr` member
is default-initialized to null. -/
def WorldBase.init : WorldBase :=
  { weighing_function := none }

/-- `WorldBase::setWeighingFunction`: stores the given strategy pointer. -/
def WorldBase.setWeighingFunction (w : WorldBase)
    (weighing_function : Option WeighingFunction) : WorldBase :=
  { w with weighing_function := weighing_function }

/-- `WorldBase::isWeighingFunctionSet`: `if (weighing_function_) return true;
return false;`. -/
def WorldBase.isWeighingFunctionSet (w : WorldBase) : Bool :=
  match w.weighing_function with
  | some _ => true
  | none => false

/-- `WorldBase::setFree` (default backend): empty body, a no-op. -/
def WorldBase.setFree (w : WorldBase) (position : Vec3)
    (bounding_box_size : Vec3) : WorldBase :=
  w

/-- `WorldBase::setOccupied` (default backend): empty body, a no-op. -/
def WorldBase.setOccupied (w : WorldBase) (position : Vec3)
    (bounding_box_size : Vec3) : WorldBase :=
  w

/-- `WorldBase::getCellStatusBoundingBox` (default backend): returns
`CellStatus::kFree`. -/
def WorldBase.getCellStatusBoundingBox (w : WorldBase) (point : Vec3)
    (bounding_box_size : Vec3) : CellStatus :=
  CellStatus.kFree

/-- `WorldBase::getCellStatusPoint` (default backend): returns
`CellStatus::kFree`. -/
def WorldBase.getCellStatusPoint (w : WorldBase) (point : Vec3) : CellStatus :=
  CellStatus.kFree

/-- `WorldBase::getLineStatus` (default backend): returns `CellStatus::kFree`. -/
def WorldBase.getLineStatus (w : WorldBase) (start finish : Vec3) : CellStatus :=
  CellStatus.kFree

/-- `WorldBase::getLineStatusBoundingBox` (default backend): returns
`CellStatus::kFree`. -/
def WorldBase.getLineStatusBoundingBox (w : WorldBase) (start finish : Vec3)
    (bounding_box : Vec3) : CellStatus :=
  CellStatus.kFree

/-- `WorldBase::getMapCenter` (default backend): `Eigen::Vector3d::Zero()`. -/
def WorldBase.getMapCenter (w : WorldBase) : Vec3 :=
  ⟨0, 0, 0⟩

/-- `WorldBase::getMapSize` (default backend):
`Eigen::Vector3d(std::numeric_limits<double>::max(), ..., ...)`. -/
def WorldBase.getMapSize (w : WorldBase) : FVec3 :=
  ⟨FVal.finite doubleMax, FVal.finite doubleMax, FVal.finite doubleMax⟩

/-! ### Disparity ingestion (modelled from the spec)

The bodies of `insertDisparityImage` and its helpers live in `world_base.cc`,
which is not among the sources; only their declarations are in the header.
They are modelled here from §4.2/§4.4 of the specification. -/

/-- A disparity pixel: either a measured floating-point disparity value or the
sentinel marking a pixel with no measurement. -/
inductive DispVal where
  | measured (d : ℚ)
  | sentinel
deriving DecidableEq, Repr

/-- A single-channel floating-point disparity image (`cv::Mat` of `CV_32F`):
row and column counts plus the pixel data in row-major order. -/
structure DispImage where
  rows : Nat
  cols : Nat
  data : List DispVal
deriving DecidableEq, Repr

/-- An entry of the canonical point field: a valid metric 3D point in the
sensor frame, or the explicit invalid marker. -/
inductive ProjPoint where
  | valid (p : Point3)
  | invalid
deriving DecidableEq, Repr

/-- The homogeneous vector obtained by transforming pixel `(u, v)` with
disparity `d` by `Q`: `Q * (u, v, d, 1)`. -/
def homogOf (Q : Mat4) (u v : Nat) (d : ℚ) : Vec4 :=
  Q.mulVec ⟨(u : ℚ), (v : ℚ), d, 1⟩

/-- Modelled from the spec: projection of one disparity pixel (§4.2).  A pixel
with no valid disparity (sentinel, or disparity ≤ 0) becomes the explicit
invalid marker; otherwise the pixel is homogeneous-transformed by `Q` and
perspective-divided by the W component, with a guard marking the pixel invalid
when `|W|` is not bounded away from zero (`|W| ≤ eps`). -/
def projectPixel (Q : Mat4) (eps : ℚ) (u v : Nat) (dv : DispVal) : ProjPoint :=
  match dv with
  | .sentinel => ProjPoint.invalid
  | .measured d =>
    if d ≤ 0 then ProjPoint.invalid
    else
      let h := homogOf Q u v d
      if |h.w| ≤ eps then ProjPoint.invalid
      else ProjPoint.valid ⟨h.x / h.w, h.y / h.w, h.z / h.w⟩

/-- Helper: traverse the pixel list carrying the flat pixel index, projecting
each pixel at its `(u, v) = (i % cols, i / cols)` coordinates. -/
def projectFrom (Q : Mat4) (eps : ℚ) (cols : Nat) : Nat → List DispVal → List ProjPoint
  | _, [] => []
  | i, dv :: rest =>
    projectPixel Q eps (i % cols) (i / cols) dv :: projectFrom Q eps cols (i + 1) rest

/-- Modelled from the spec: the 3D point field of a disparity image (§4.2) —
one output entry per pixel, same dimensions as the input image. -/
def pointFieldOf (Q : Mat4) (eps : ℚ) (img : DispImage) : List ProjPoint :=
  projectFrom Q eps img.cols 0 img.data

/-- Modelled from the spec: `WorldBase::computeWeights(const cv::Mat&
disparity, cv::Mat* weights)`, whose body is not among the sources.  Per §4.2
the weighted variant computes one weight per valid point from the raw disparity
magnitude via the attached `WeighingFunction`, in the same traversal as the
point projection. -/
def computeWeightsDisparity (wf : WeighingFunction) (Q : Mat4) (eps : ℚ)
    (cols : Nat) : Nat → List DispVal → List ℚ
  | _, [] => []
  | i, dv :: rest =>
    match dv, projectPixel Q eps (i % cols) (i / cols) dv with
    | .measured d, .valid _ =>
      wf.weightOfDisparity |d| :: computeWeightsDisparity wf Q eps cols (i + 1) rest
    | _, _ => computeWeightsDisparity wf Q eps cols (i + 1) rest

/-! ### Point-cloud ingestion (modelled from the spec) -/

/-- A record of an external point-cloud message: raw x/y/z coordinates that may
be non-finite (NaN or infinity); non-geometric fields are ignored. -/
structure RawPoint where
  x : FVal
  y : FVal
  z : FVal
deriving DecidableEq, Repr

/-- The canonical point of a raw record, when all three coordinates are
finite. -/
def toFinitePoint (p : RawPoint) : Option Point3 :=
  match p.x, p.y, p.z with
  | .finite a, .finite b, .finite c => some ⟨a, b, c⟩
  | _, _, _ => none

/-- Whether all three coordinates of a raw record are finite. -/
def RawPoint.isFinitePt (p : RawPoint) : Bool :=
  p.x.isFinite && p.y.isFinite && p.z.isFinite

/-- Modelled from the spec: point-cloud ingestion (§4.3).  Converts the
message into the canonical point field, excluding points with non-finite
coordinates. -/
def ingestPointcloud (cloud : List RawPoint) : List Point3 :=
  cloud.filterMap toFinitePoint

/-- Modelled from the spec: `WorldBase::computeWeights(const
pcl::PointCloud<pcl::PointXYZ>::Ptr& cloud, std::vector<double>* weights)`,
whose body is not among the sources.  Per §4.3 a parallel weight field is
produced from a per-point signal via the strategy, one weight per valid
point. -/
def computeWeights (wf : WeighingFunction) (cloud : List Point3) : List ℚ :=
  cloud.map wf.weightOfPoint

/-! ### The insertion dispatcher (modelled from the spec) -/

/-- Ingestion-validation failures (§7 taxonomy (b)): empty or malformed input
images/clouds, and dimension mismatches between the disparity image and Q's
assumed resolution. -/
inductive IngestError where
  | emptyImage
  | dimensionMismatch
  | emptyCloud
deriving DecidableEq, Repr

/-- An invocation of one backend insertion hook, with the canonical data
forwarded to it. -/
inductive HookCall where
  | disparityUnweighted (pts : List ProjPoint)
  | disparityWeighted (pts : List ProjPoint) (ws : List ℚ)
  | pointcloudUnweighted (pts : List Point3)
  | pointcloudWeighted (pts : List Point3) (ws : List ℚ)
deriving Repr

/-- The input modality a hook belongs to. -/
inductive Modality where
  | disparity
  | pointcloud
deriving DecidableEq, Repr

/-- The modality of a hook call. -/
def HookCall.modality : HookCall → Modality
  | .disparityUnweighted _ => Modality.disparity
  | .disparityWeighted _ _ => Modality.disparity
  | .pointcloudUnweighted _ => Modality.pointcloud
  | .pointcloudWeighted _ _ => Modality.pointcloud

/-- Whether a hook call is one of the two weighted hooks. -/
def HookCall.isWeighted : HookCall → Bool
  | .disparityWeighted _ _ => true
  | .pointcloudWeighted _ _ => true
  | _ => false

/-- Modelled from the spec: the W-guard threshold of §4.2/§8 ("|W| above an
epsilon"); the spec fixes no numeric value. -/
def kWEpsilon : ℚ := 1 / 1000000

/-- Modelled from the spec: rescaling of the full-resolution `Q` for a
downsampled disparity image (§3): the resolution ratio is applied to all four
intrinsic-derived entries (the fourth column), not just the focal length. -/
def rescaleQ (Q_full : Mat4) (cols full_w : Nat) : Mat4 :=
  let scale : ℚ := (cols : ℚ) / (full_w : ℚ)
  { r0 := { Q_full.r0 with w := Q_full.r0.w * scale }
    r1 := { Q_full.r1 with w := Q_full.r1.w * scale }
    r2 := { Q_full.r2 with w := Q_full.r2.w * scale }
    r3 := { Q_full.r3 with w := Q_full.r3.w * scale } }

/-- Modelled from the spec: `WorldBase::insertDisparityImage`, whose body is
not among the sources (§4.4).  Validates the input (non-empty image with
consistent dimensions against Q's assumed full resolution); on failure the
call aborts with no backend hook invoked.  Otherwise it rescales `Q`, runs
disparity ingestion, and forwards the point field to exactly one backend hook:
the weighted one when a weighing function is set, the unweighted one
otherwise.  `full_image_size` is `(width, height)`. -/
def WorldBase.insertDisparityImage (w : WorldBase)
    (sensor_to_world : Transformation) (disparity : DispImage)
    (Q_full : Mat4) (full_image_size : Nat × Nat) :
    Except IngestError (List HookCall) :=
  if disparity.rows = 0 ∨ disparity.cols = 0 ∨
      disparity.data.length ≠ disparity.rows * disparity.cols then
    Except.error IngestError.emptyImage
  else if disparity.cols * full_image_size.2 ≠ disparity.rows * full_image_size.1 then
    Except.error IngestError.dimensionMismatch
  else
    let Q := rescaleQ Q_full disparity.cols full_image_size.1
    let pts := pointFieldOf Q kWEpsilon disparity
    match w.weighing_function with
    | some wf =>
      Except.ok [HookCall.disparityWeighted pts
        (computeWeightsDisparity wf Q kWEpsilon disparity.cols 0 disparity.data)]
    | none => Except.ok [HookCall.disparityUnweighted pts]

/-- Modelled from the spec: `WorldBase::insertPointcloud`, whose body is not
among the sources (§4.4).  Validates the input (non-empty cloud; §7 taxonomy
(b)), converts the message into the canonical point field, and forwards it to
exactly one backend hook: weighted when a weighing function is set, unweighted
otherwise. -/
def WorldBase.insertPointcloud (w : WorldBase)
    (sensor_to_world : Transformation) (cloud_msg : List RawPoint) :
    Except IngestError (List HookCall) :=
  if cloud_msg.isEmpty then Except.error IngestError.emptyCloud
  else
    let pts := ingestPointcloud cloud_msg
    match w.weighing_function with
    | some wf => Except.ok [HookCall.pointcloudWeighted pts (computeWeights wf pts)]
    | none => Except.ok [HookCall.pointcloudUnweighted pts]

/-- The backend hooks a dispatcher call invoked: none when the call aborted
during validation. -/
def hookCallsOf (r : Except IngestError (List HookCall)) : List HookCall :=
  match r with
  | .ok l => l
  | .error _ => []

/-- A backend's state evolution under a list of hook invocations: each hook is
applied in order by the backend-specific step function. -/
def applyHooks {σ : Type} (step : σ → HookCall → σ) (b : σ) (l : List HookCall) : σ :=
  l.foldl step b

/-! ### The default backend's insertion hooks (bodies in the header) -/

/-- `WorldBase::insertProjectedDisparityIntoMapImpl` (default backend): logs
`LOG(ERROR)` and changes no state. -/
def WorldBase.insertProjectedDisparityIntoMapImpl (w : WorldBase)
    (sensor_to_world : Transformation) (projected_points : List ProjPoint) :
    WorldBase × List String :=
  (w, ["Calling unimplemented disparity insertion!"])

/-- `WorldBase::insertProjectedDisparityIntoMapWithWeightsImpl` (default
backend): logs `LOG(ERROR)` and changes no state. -/
def WorldBase.insertProjectedDisparityIntoMapWithWeightsImpl (w : WorldBase)
    (sensor_to_world : Transformation) (projected_points : List ProjPoint)
    (weights : List ℚ) : WorldBase × List String :=
  (w, ["Calling unimplemented disparity insertion!"])

/-- `WorldBase::insertPointcloudIntoMapImpl` (default backend): logs
`LOG(ERROR)` and changes no state. -/
def WorldBase.insertPointcloudIntoMapImpl (w : WorldBase)
    (sensor_to_world : Transformation) (pointcloud : List Point3) :
    WorldBase × List String :=
  (w, ["Calling unimplemented pointcloud insertion!"])

/-- `WorldBase::insertPointcloudIntoMapWithWeightsImpl` (default backend): logs
`LOG(ERROR)` and changes no state (the header's message says "disparity" here,
transcribed as-is). -/
def WorldBase.insertPointcloudIntoMapWithWeightsImpl (w : WorldBase)
    (sensor_to_world : Transformation) (pointcloud : List Point3)
    (weights : List ℚ) : WorldBase × List String :=
  (w, ["Calling unimplemented disparity insertion!"])

/-- Dispatch of one hook call to the default backend's hook bodies. -/
def applyHookDefault (T : Transformation) (w : WorldBase) (h : HookCall) :
    WorldBase × List String :=
  match h with
  | .disparityUnweighted pts => w.insertProjectedDisparityIntoMapImpl T pts
  | .disparityWeighted pts ws => w.insertProjectedDisparityIntoMapWithWeightsImpl T pts ws
  | .pointcloudUnweighted pts => w.insertPointcloudIntoMapImpl T pts
  | .pointcloudWeighted pts ws => w.insertPointcloudIntoMapWithWeightsImpl T pts ws

/-! ### Q-matrix computation (modelled from the spec) -/

/-- The relevant entries of a 3×3 UNRECTIFIED camera intrinsic matrix
`[[fx, s, cx], [0, fy, cy], [0, 0, 1]]`. -/
structure CameraMatrix where
  fx : ℚ
  fy : ℚ
  cx : ℚ
  cy : ℚ
deriving DecidableEq, Repr

/-- The translation magnitude of a pose, as the executable 1-norm of the
translation (zero exactly when the translation is zero, within a factor of √3
of the Euclidean norm). -/
def translationMag (t : Vec3) : ℚ :=
  |t.x| + |t.y| + |t.z|

/-- Calibration failures (§7 taxonomy (a)): degenerate camera geometry. -/
inductive CalibError where
  | degenerateBaseline
deriving DecidableEq, Repr

/-- Modelled from the spec: `WorldBase::generateQ`, whose body is not among
the sources (§4.1, §3).  The standard perspective disparity-to-depth mapping
matrix satisfying `Z = baseline * fx / disparity`, with off-axis principal
points handled explicitly; the entries with the depth scale `1 / Tx` are
computed with IEEE division and degenerate to non-finite values when
`Tx = 0`. -/
def generateQ (Tx left_cx left_cy left_fx left_fy right_cx right_cy right_fx
    right_fy : ℚ) : FMat4 :=
  { r0 := ⟨FVal.finite 1, FVal.finite 0, FVal.finite 0, FVal.finite (-left_cx)⟩
    r1 := ⟨FVal.finite 0, FVal.finite 1, FVal.finite 0, FVal.finite (-left_cy)⟩
    r2 := ⟨FVal.finite 0, FVal.finite 0, FVal.finite 0, FVal.finite left_fx⟩
    r3 := ⟨FVal.finite 0, FVal.finite 0, fdiv (-1) Tx,
           fdiv (left_cx - right_cx) Tx⟩ }

/-- Modelled from the spec: `WorldBase::getQForCameras`, whose body is not
among the sources (§4.1).  Computes the baseline as the translation magnitude
of the transform between the two camera frames; a zero or near-zero baseline
(at most `baseline_epsilon`) is surfaced as a precondition violation,
otherwise the full-resolution `Q` is produced by `generateQ`. -/
def getQForCameras (T_C1_C0 : Transformation)
    (left_cam_matrix right_cam_matrix : CameraMatrix)
    (full_image_size : Nat × Nat) (baseline_epsilon : ℚ) :
    Except CalibError FMat4 :=
  let baseline := translationMag T_C1_C0.translation
  if baseline ≤ baseline_epsilon then Except.error CalibError.degenerateBaseline
  else
    Except.ok (generateQ baseline left_cam_matrix.cx left_cam_matrix.cy
      left_cam_matrix.fx left_cam_matrix.fy right_cam_matrix.cx
      right_cam_matrix.cy right_cam_matrix.fx right_cam_matrix.fy)

/-! ## Helper lemmas -/

/-- `toFinitePoint` succeeds exactly on records with all-finite coordinates. -/
theorem toFinitePoint_isSome (p : RawPoint) :
    (toFinitePoint p).isSome = p.isFinitePt := by
  cases hx : p.x <;> cases hy : p.y <;> cases hz : p.z <;>
    simp [toFinitePoint, RawPoint.isFinitePt, FVal.isFinite, hx, hy, hz]

/-- Cardinality conservation of point-cloud ingestion: valid points plus
excluded non-finite records account for every input record. -/
theorem length_ingest_add_countP (cloud : List RawPoint) :
    (ingestPointcloud cloud).length +
      cloud.countP (fun p => ! p.isFinitePt) = cloud.length := by
  induction cloud with
  | nil => rfl
  | cons p rest ih =>
    have hsome := toFinitePoint_isSome p
    cases hp : toFinitePoint p with
    | none =>
      have hfin : p.isFinitePt = false := by rw [hp] at hsome; simpa using hsome.symm
      simp only [ingestPointcloud, List.filterMap_cons, hp, List.countP_cons, hfin,
        List.length_cons, Bool.not_false, if_pos] at ih ⊢
      omega
    | some q =>
      have hfin : p.isFinitePt = true := by rw [hp] at hsome; simpa using hsome.symm
      simp only [ingestPointcloud, List.filterMap_cons, hp, List.countP_cons, hfin,
        List.length_cons, Bool.not_true, if_neg, Bool.false_eq_true,
        not_false_eq_true] at ih ⊢
      omega

/-- A disparity insertion call whose input passes validation returns normally
with exactly one hook invocation, of the disparity modality, weighted exactly
when a weighing function is set. -/
theorem insertDisparityImage_ok (w : WorldBase) (T : Transformation)
    (disparity : DispImage) (Q_full : Mat4) (full_image_size : Nat × Nat)
    (himg : disparity.rows ≠ 0 ∧ disparity.cols ≠ 0 ∧
      disparity.data.length = disparity.rows * disparity.cols)
    (hdim : disparity.cols * full_image_size.2 =
      disparity.rows * full_image_size.1) :
    ∃ hk, w.insertDisparityImage T disparity Q_full full_image_size =
        Except.ok [hk] ∧
      hk.modality = Modality.disparity ∧
      hk.isWeighted = w.isWeighingFunctionSet := by
  have hc1 : ¬(disparity.rows = 0 ∨ disparity.cols = 0 ∨
      disparity.data.length ≠ disparity.rows * disparity.cols) := by
    rintro (h | h | h)
    · exact himg.1 h
    · exact himg.2.1 h
    · exact h himg.2.2
  unfold WorldBase.insertDisparityImage
  rw [if_neg hc1, if_neg (fun h => h hdim)]
  cases hwf : w.weighing_function with
  | some wf =>
    exact ⟨_, rfl, rfl, by simp [WorldBase.isWeighingFunctionSet, hwf,
      HookCall.isWeighted]⟩
  | none =>
    exact ⟨_, rfl, rfl, by simp [WorldBase.isWeighingFunctionSet, hwf,
      HookCall.isWeighted]⟩

/-- A point-cloud insertion call whose input passes validation returns
normally with exactly one hook invocation, of the point-cloud modality,
weighted exactly when a weighing function is set. -/
theorem insertPointcloud_ok (w : WorldBase) (T : Transformation)
    (cloud_msg : List RawPoint) (hcloud : cloud_msg ≠ []) :
    ∃ hk, w.insertPointcloud T cloud_msg = Except.ok [hk] ∧
      hk.modality = Modality.pointcloud ∧
      hk.isWeighted = w.isWeighingFunctionSet := by
  unfold WorldBase.insertPointcloud
  rw [if_neg (by simpa [List.isEmpty_iff] using hcloud)]
  cases hwf : w.weighing_function with
  | some wf =>
    exact ⟨_, rfl, rfl, by simp [WorldBase.isWeighingFunctionSet, hwf,
      HookCall.isWeighted]⟩
  | none =>
    exact ⟨_, rfl, rfl, by simp [WorldBase.isWeighingFunctionSet, hwf,
      HookCall.isWeighted]⟩

/-! ## Concrete sample inputs (used by the witness theorems) -/

/-- A sample sensor-to-world pose: identity rotation, unit translation. -/
def sampleT : Transformation := ⟨⟨1, 0, 0, 0⟩, ⟨1, 0, 0⟩⟩

/-- A sample pose with zero translation (degenerate baseline). -/
def degenerateT : Transformation := ⟨⟨1, 0, 0, 0⟩, ⟨0, 0, 0⟩⟩

/-- The identity 4×4 matrix, a sample `Q`. -/
def sampleQ : Mat4 := ⟨⟨1, 0, 0, 0⟩, ⟨0, 1, 0, 0⟩, ⟨0, 0, 1, 0⟩, ⟨0, 0, 0, 1⟩⟩

/-- The zero 4×4 matrix: every pixel transformed by it has `W = 0`. -/
def zeroQ : Mat4 := ⟨⟨0, 0, 0, 0⟩, ⟨0, 0, 0, 0⟩, ⟨0, 0, 0, 0⟩, ⟨0, 0, 0, 0⟩⟩

/-- A valid 1×1 disparity image with one measured pixel. -/
def sampleImg : DispImage := ⟨1, 1, [DispVal.measured 1]⟩

/-- A 1×3 disparity image: a sentinel pixel, a non-positive disparity, and a
positive disparity. -/
def mixedImg : DispImage :=
  ⟨1, 3, [DispVal.sentinel, DispVal.measured (-1), DispVal.measured 1]⟩

/-- The empty disparity image (fails validation). -/
def emptyImg : DispImage := ⟨0, 0, []⟩

/-- A sample one-point cloud with finite coordinates. -/
def sampleCloud : List RawPoint :=
  [⟨FVal.finite 1, FVal.finite 2, FVal.finite 3⟩]

/-- A sample camera intrinsic matrix. -/
def sampleCam : CameraMatrix := ⟨500, 500, 320, 240⟩

/-! ## Claim theorems -/

/-- C1: On the default (empty-world) backend, every query operation —
`getCellStatusPoint`, `getCellStatusBoundingBox`, `getLineStatus`,
`getLineStatusBoundingBox` — returns Free for every input, including
degenerate inputs (the bounding box and the line endpoints range over all
values, so zero-size boxes and coincident endpoints are covered), and every
`CellStatus` value lies in the tri-state vocabulary {Free, Occupied,
Unknown}. -/
theorem default_backend_queries_always_free (w : WorldBase)
    (point bounding_box s e : Vec3) :
    w.getCellStatusPoint point = CellStatus.kFree ∧
    w.getCellStatusBoundingBox point bounding_box = CellStatus.kFree ∧
    w.getLineStatus s e = CellStatus.kFree ∧
    w.getLineStatusBoundingBox s e bounding_box = CellStatus.kFree ∧
    (∀ c : CellStatus, c = CellStatus.kFree ∨ c = CellStatus.kOccupied ∨
      c = CellStatus.kUnknown) := by
  refine ⟨rfl, rfl, rfl, rfl, ?_⟩
  intro c
  cases c
  · exact Or.inl rfl
  · exact Or.inr (Or.inl rfl)
  · exact Or.inr (Or.inr rfl)

/-- C2: On the default backend, `setFree` and `setOccupied` are no-ops for
every position and bounding-box size — the state is unchanged — and in
particular `getCellStatusPoint` at the same point after `setOccupied` still
returns Free. -/
theorem default_backend_set_noop (w : WorldBase) (position bounding_box_size : Vec3) :
    w.setFree position bounding_box_size = w ∧
    w.setOccupied position bounding_box_size = w ∧
    (w.setOccupied position bounding_box_size).getCellStatusPoint position =
      CellStatus.kFree :=
  ⟨rfl, rfl, rfl⟩

/-- C7: Point-cloud ingestion conserves cardinality: valid output points plus
excluded non-finite input records equal the input count, and the weight field
computed from the valid points has exactly the valid output cardinality. -/
theorem pointcloud_ingestion_cardinality (cloud : List RawPoint)
    (wf : WeighingFunction) :
    (ingestPointcloud cloud).length +
      cloud.countP (fun p => ! p.isFinitePt) = cloud.length ∧
    (computeWeights wf (ingestPointcloud cloud)).length =
      (ingestPointcloud cloud).length := by
  refine ⟨length_ingest_add_countP cloud, ?_⟩
  simp [computeWeights]

/-- C8: `isWeighingFunctionSet` returns true exactly when the stored
weighing-function pointer is non-null: false on a freshly constructed
`WorldBase`, true after `setWeighingFunction` with a non-null strategy, false
again after `setWeighingFunction` with a null strategy, and in general it
equals the non-nullness of the stored pointer. -/
theorem isWeighingFunctionSet_tracks_pointer (w : WorldBase)
    (wf : WeighingFunction) :
    WorldBase.init.isWeighingFunctionSet = false ∧
    (w.setWeighingFunction (some wf)).isWeighingFunctionSet = true ∧
    (w.setWeighingFunction none).isWeighingFunctionSet = false ∧
    w.isWeighingFunctionSet = w.weighing_function.isSome := by
  refine ⟨rfl, rfl, rfl, ?_⟩
  cases h : w.weighing_function <;>
    simp [WorldBase.isWeighingFunctionSet, h]

/-- C9: The default backend's `getMapCenter` always returns the origin, and
its `getMapSize` always returns the maximal representable finite double
`(2^53 - 1) * 2^971` in each of the three axes — finite values, not
infinities or NaN. -/
theorem default_map_center_origin_size_max (w : WorldBase) :
    w.getMapCenter = (⟨0, 0, 0⟩ : Vec3) ∧
    w.getMapSize = (⟨FVal.finite doubleMax, FVal.finite doubleMax,
      FVal.finite doubleMax⟩ : FVec3) ∧
    (w.getMapSize).x.isFinite = true ∧
    (w.getMapSize).y.isFinite = true ∧
    (w.getMapSize).z.isFinite = true ∧
    doubleMax = (2 ^ 53 - 1) * 2 ^ 971 :=
  ⟨rfl, rfl, rfl, rfl, rfl, rfl⟩

/-- A sample weighing strategy. -/
def sampleWf : WeighingFunction := ⟨fun d => d, fun p => p.z⟩

/-- C3: Every insertion call (disparity or point-cloud) that passes input
validation invokes exactly one backend hook: the weighted hook of the
matching modality when a weighing function is set at the time of the call,
the unweighted hook of the matching modality otherwise — never both, never
the other modality's hooks. -/
theorem dispatch_exactly_one_matching_hook (w : WorldBase) (T : Transformation)
    (disparity : DispImage) (Q_full : Mat4) (full_image_size : Nat × Nat)
    (cloud_msg : List RawPoint)
    (himg : disparity.rows ≠ 0 ∧ disparity.cols ≠ 0 ∧
      disparity.data.length = disparity.rows * disparity.cols)
    (hdim : disparity.cols * full_image_size.2 =
      disparity.rows * full_image_size.1)
    (hcloud : cloud_msg ≠ []) :
    (∃ hk, w.insertDisparityImage T disparity Q_full full_image_size =
        Except.ok [hk] ∧
      hk.modality = Modality.disparity ∧
      hk.isWeighted = w.isWeighingFunctionSet) ∧
    (∃ hk, w.insertPointcloud T cloud_msg = Except.ok [hk] ∧
      hk.modality = Modality.pointcloud ∧
      hk.isWeighted = w.isWeighingFunctionSet) :=
  ⟨insertDisparityImage_ok w T disparity Q_full full_image_size himg hdim,
   insertPointcloud_ok w T cloud_msg hcloud⟩

/-- Witness for C3: the freshly constructed dispatcher (no weighing function)
and a dispatcher holding a strategy, on a concrete valid 1×1 image and a
concrete one-point cloud. -/
theorem dispatch_exactly_one_matching_hook_witness :
    ((∃ hk, WorldBase.init.insertDisparityImage sampleT sampleImg sampleQ
        (1, 1) = Except.ok [hk] ∧
      hk.modality = Modality.disparity ∧
      hk.isWeighted = WorldBase.init.isWeighingFunctionSet) ∧
    (∃ hk, WorldBase.init.insertPointcloud sampleT sampleCloud =
        Except.ok [hk] ∧
      hk.modality = Modality.pointcloud ∧
      hk.isWeighted = WorldBase.init.isWeighingFunctionSet)) ∧
    ((∃ hk, (WorldBase.init.setWeighingFunction (some sampleWf)).insertDisparityImage
        sampleT sampleImg sampleQ (1, 1) = Except.ok [hk] ∧
      hk.modality = Modality.disparity ∧
      hk.isWeighted = (WorldBase.init.setWeighingFunction
        (some sampleWf)).isWeighingFunctionSet) ∧
    (∃ hk, (WorldBase.init.setWeighingFunction (some sampleWf)).insertPointcloud
        sampleT sampleCloud = Except.ok [hk] ∧
      hk.modality = Modality.pointcloud ∧
      hk.isWeighted = (WorldBase.init.setWeighingFunction
        (some sampleWf)).isWeighingFunctionSet)) :=
  ⟨dispatch_exactly_one_matching_hook WorldBase.init sampleT sampleImg sampleQ
      (1, 1) sampleCloud (by decide) (by decide) (by decide),
   dispatch_exactly_one_matching_hook
      (WorldBase.init.setWeighingFunction (some sampleWf)) sampleT sampleImg
      sampleQ (1, 1) sampleCloud (by decide) (by decide) (by decide)⟩

/-- C4: The four default backend insertion hooks log an error message and
make no state change, applying any sequence of hook calls to the default
backend leaves it unchanged, and every valid insertion call against the
default backend returns normally (an `Except.ok`, never an abort). -/
theorem default_hooks_log_error_and_noop (w : WorldBase) (T : Transformation)
    (projected_points : List ProjPoint) (pointcloud : List Point3)
    (weights_img weights_pc : List ℚ)
    (disparity : DispImage) (Q_full : Mat4) (full_image_size : Nat × Nat)
    (cloud_msg : List RawPoint)
    (himg : disparity.rows ≠ 0 ∧ disparity.cols ≠ 0 ∧
      disparity.data.length = disparity.rows * disparity.cols)
    (hdim : disparity.cols * full_image_size.2 =
      disparity.rows * full_image_size.1)
    (hcloud : cloud_msg ≠ []) :
    w.insertProjectedDisparityIntoMapImpl T projected_points =
      (w, ["Calling unimplemented disparity insertion!"]) ∧
    w.insertProjectedDisparityIntoMapWithWeightsImpl T projected_points
        weights_img =
      (w, ["Calling unimplemented disparity insertion!"]) ∧
    w.insertPointcloudIntoMapImpl T pointcloud =
      (w, ["Calling unimplemented pointcloud insertion!"]) ∧
    w.insertPointcloudIntoMapWithWeightsImpl T pointcloud weights_pc =
      (w, ["Calling unimplemented disparity insertion!"]) ∧
    (∀ l, applyHooks (fun b hk => (applyHookDefault T b hk).1) w l = w) ∧
    (∃ l, w.insertDisparityImage T disparity Q_full full_image_size =
      Except.ok l) ∧
    (∃ l, w.insertPointcloud T cloud_msg = Except.ok l) := by
  refine ⟨rfl, rfl, rfl, rfl, ?_, ?_, ?_⟩
  · intro l
    induction l with
    | nil => rfl
    | cons hk rest ih => cases hk <;> exact ih
  · obtain ⟨hk, h, -, -⟩ :=
      insertDisparityImage_ok w T disparity Q_full full_image_size himg hdim
    exact ⟨[hk], h⟩
  · obtain ⟨hk, h, -, -⟩ := insertPointcloud_ok w T cloud_msg hcloud
    exact ⟨[hk], h⟩

/-- Witness for C4: the default backend at a concrete valid image and cloud;
the hooks leave the state unchanged and the calls return `Except.ok`. -/
theorem default_hooks_log_error_and_noop_witness :
    WorldBase.init.insertProjectedDisparityIntoMapImpl sampleT [] =
      (WorldBase.init, ["Calling unimplemented disparity insertion!"]) ∧
    WorldBase.init.insertProjectedDisparityIntoMapWithWeightsImpl sampleT [] [] =
      (WorldBase.init, ["Calling unimplemented disparity insertion!"]) ∧
    WorldBase.init.insertPointcloudIntoMapImpl sampleT [] =
      (WorldBase.init, ["Calling unimplemented pointcloud insertion!"]) ∧
    WorldBase.init.insertPointcloudIntoMapWithWeightsImpl sampleT [] [] =
      (WorldBase.init, ["Calling unimplemented disparity insertion!"]) ∧
    (∀ l, applyHooks (fun b hk => (applyHookDefault sampleT b hk).1)
      WorldBase.init l = WorldBase.init) ∧
    (∃ l, WorldBase.init.insertDisparityImage sampleT sampleImg sampleQ
      (1, 1) = Except.ok l) ∧
    (∃ l, WorldBase.init.insertPointcloud sampleT sampleCloud = Except.ok l) :=
  default_hooks_log_error_and_noop WorldBase.init sampleT [] [] [] []
    sampleImg sampleQ (1, 1) sampleCloud (by decide) (by decide) (by decide)

/-- C5: An insertion call whose input fails ingestion validation (empty or
malformed image, dimension mismatch against Q's assumed resolution, or empty
cloud) aborts with an error before any backend hook is invoked: the call
makes zero hook calls, so every backend state is left untouched. -/
theorem invalid_input_aborts_untouched (w : WorldBase) (T : Transformation)
    (disparity : DispImage) (Q_full : Mat4) (full_image_size : Nat × Nat)
    (cloud_msg : List RawPoint)
    (hbad : disparity.rows = 0 ∨ disparity.cols = 0 ∨
      disparity.data.length ≠ disparity.rows * disparity.cols ∨
      disparity.cols * full_image_size.2 ≠
        disparity.rows * full_image_size.1)
    (hcbad : cloud_msg = []) :
    (∃ e, w.insertDisparityImage T disparity Q_full full_image_size =
      Except.error e) ∧
    hookCallsOf (w.insertDisparityImage T disparity Q_full full_image_size) =
      [] ∧
    (∀ (σ : Type) (step : σ → HookCall → σ) (b : σ),
      applyHooks step b
        (hookCallsOf (w.insertDisparityImage T disparity Q_full
          full_image_size)) = b) ∧
    (∃ e, w.insertPointcloud T cloud_msg = Except.error e) ∧
    hookCallsOf (w.insertPointcloud T cloud_msg) = [] ∧
    (∀ (σ : Type) (step : σ → HookCall → σ) (b : σ),
      applyHooks step b (hookCallsOf (w.insertPointcloud T cloud_msg)) = b) := by
  have hd : ∃ e, w.insertDisparityImage T disparity Q_full full_image_size =
      Except.error e := by
    unfold WorldBase.insertDisparityImage
    by_cases h1 : disparity.rows = 0 ∨ disparity.cols = 0 ∨
        disparity.data.length ≠ disparity.rows * disparity.cols
    · rw [if_pos h1]; exact ⟨_, rfl⟩
    · have h2 : disparity.cols * full_image_size.2 ≠
          disparity.rows * full_image_size.1 := by
        rcases hbad with h | h | h | h
        · exact absurd (Or.inl h) h1
        · exact absurd (Or.inr (Or.inl h)) h1
        · exact absurd (Or.inr (Or.inr h)) h1
        · exact h
      rw [if_neg h1, if_pos h2]; exact ⟨_, rfl⟩
  obtain ⟨e1, he1⟩ := hd
  have hp : w.insertPointcloud T cloud_msg =
      Except.error IngestError.emptyCloud := by
    unfold WorldBase.insertPointcloud
    rw [if_pos (by simp [hcbad])]
  refine ⟨⟨e1, he1⟩, ?_, ?_, ⟨_, hp⟩, ?_, ?_⟩
  · rw [he1]; rfl
  · intro σ step b; rw [he1]; rfl
  · rw [hp]; rfl
  · intro σ step b; rw [hp]; rfl

/-- Witness for C5: the empty image and the empty cloud abort with an error,
invoke no hook, and leave a concrete backend state unchanged. -/
theorem invalid_input_aborts_untouched_witness :
    (∃ e, WorldBase.init.insertDisparityImage sampleT emptyImg sampleQ
      (1, 1) = Except.error e) ∧
    hookCallsOf (WorldBase.init.insertDisparityImage sampleT emptyImg sampleQ
      (1, 1)) = [] ∧
    applyHooks (fun (b : Nat) _ => b + 1) 0
      (hookCallsOf (WorldBase.init.insertDisparityImage sampleT emptyImg
        sampleQ (1, 1))) = 0 ∧
    (∃ e, WorldBase.init.insertPointcloud sampleT [] = Except.error e) ∧
    hookCallsOf (WorldBase.init.insertPointcloud sampleT []) = [] ∧
    applyHooks (fun (b : Nat) _ => b + 1) 0
      (hookCallsOf (WorldBase.init.insertPointcloud sampleT [])) = 0 := by
  obtain ⟨h1, h2, h3, h4, h5, h6⟩ := invalid_input_aborts_untouched
    WorldBase.init sampleT emptyImg sampleQ (1, 1) [] (by decide) rfl
  exact ⟨h1, h2, h3 Nat (fun b _ => b + 1) 0, h4, h5,
    h6 Nat (fun b _ => b + 1) 0⟩

/-- The projected field has one entry per pixel. -/
theorem projectFrom_length (Q : Mat4) (eps : ℚ) (cols : Nat) :
    ∀ (j : Nat) (l : List DispVal),
      (projectFrom Q eps cols j l).length = l.length
  | _, [] => rfl
  | j, dv :: rest => by
    simp [projectFrom, projectFrom_length Q eps cols (j + 1) rest]

/-- Entry `i` of the projected field is the projection of pixel `i` at its
recovered image coordinates. -/
theorem projectFrom_getD (Q : Mat4) (eps : ℚ) (cols : Nat) :
    ∀ (l : List DispVal) (j i : Nat), i < l.length →
      (projectFrom Q eps cols j l).getD i ProjPoint.invalid =
        projectPixel Q eps ((j + i) % cols) ((j + i) / cols)
          (l.getD i DispVal.sentinel)
  | [], _, i, h => absurd h (by simp)
  | dv :: rest, j, 0, _ => by simp [projectFrom]
  | dv :: rest, j, i + 1, h => by
    have ih := projectFrom_getD Q eps cols rest (j + 1) i (by simpa using h)
    have hadd : j + 1 + i = j + (i + 1) := by omega
    rw [hadd] at ih
    simpa [projectFrom] using ih

/-- Entry `i` of the point field of an image is the projection of pixel `i`
at coordinates `(i % cols, i / cols)`. -/
theorem pointFieldOf_getD (Q : Mat4) (eps : ℚ) (img : DispImage) (i : Nat)
    (hi : i < img.data.length) :
    (pointFieldOf Q eps img).getD i ProjPoint.invalid =
      projectPixel Q eps (i % img.cols) (i / img.cols)
        (img.data.getD i DispVal.sentinel) := by
  simpa using projectFrom_getD Q eps img.cols img.data 0 i hi

/-- C6: In disparity ingestion, every pixel whose disparity is the sentinel
or ≤ 0, and every pixel whose homogeneous W component after transforming by Q
is not bounded away from zero (`|W| ≤ eps`), is marked explicitly invalid in
the output point field; a valid (finite) point arises only from a measured
pixel with positive disparity and `|W| > eps`, so the perspective divide is
never performed with W ≈ 0. -/
theorem invalid_disparity_pixels_marked_invalid (Q : Mat4) (eps : ℚ)
    (img : DispImage) (i : Nat) (hi : i < img.data.length) :
    (img.data.getD i DispVal.sentinel = DispVal.sentinel →
      (pointFieldOf Q eps img).getD i ProjPoint.invalid =
        ProjPoint.invalid) ∧
    (∀ d : ℚ, img.data.getD i DispVal.sentinel = DispVal.measured d →
      d ≤ 0 →
      (pointFieldOf Q eps img).getD i ProjPoint.invalid =
        ProjPoint.invalid) ∧
    (∀ d : ℚ, img.data.getD i DispVal.sentinel = DispVal.measured d →
      |(homogOf Q (i % img.cols) (i / img.cols) d).w| ≤ eps →
      (pointFieldOf Q eps img).getD i ProjPoint.invalid =
        ProjPoint.invalid) ∧
    (∀ p : Point3, (pointFieldOf Q eps img).getD i ProjPoint.invalid =
        ProjPoint.valid p →
      ∃ d : ℚ, img.data.getD i DispVal.sentinel = DispVal.measured d ∧
        0 < d ∧ eps < |(homogOf Q (i % img.cols) (i / img.cols) d).w|) := by
  have hfield := pointFieldOf_getD Q eps img i hi
  refine ⟨?_, ?_, ?_, ?_⟩
  · intro hs
    rw [hfield, hs]
    rfl
  · intro d hd hle
    rw [hfield, hd]
    simp [projectPixel, hle]
  · intro d hd hw
    rw [hfield, hd]
    by_cases hle : d ≤ 0
    · simp [projectPixel, hle]
    · simp [projectPixel, hle, hw]
  · intro p hp
    rw [hfield] at hp
    cases hd : img.data.getD i DispVal.sentinel with
    | sentinel =>
      rw [hd] at hp
      exact absurd hp (by simp [projectPixel])
    | measured d =>
      rw [hd] at hp
      by_cases hle : d ≤ 0
      · rw [projectPixel, if_pos hle] at hp
        exact absurd hp (by simp)
      · by_cases hw : |(homogOf Q (i % img.cols) (i / img.cols) d).w| ≤ eps
        · rw [projectPixel, if_neg hle, if_pos hw] at hp
          exact absurd hp (by simp)
        · exact ⟨d, rfl, lt_of_not_le hle, lt_of_not_le hw⟩

/-- Witness for C6: on a concrete 1×3 image under the zero Q matrix, the
sentinel pixel, the non-positive-disparity pixel, and the positive-disparity
pixel whose W component is 0 are all marked invalid. -/
theorem invalid_disparity_pixels_marked_invalid_witness :
    (pointFieldOf zeroQ kWEpsilon mixedImg).getD 0 ProjPoint.invalid =
      ProjPoint.invalid ∧
    (pointFieldOf zeroQ kWEpsilon mixedImg).getD 1 ProjPoint.invalid =
      ProjPoint.invalid ∧
    (pointFieldOf zeroQ kWEpsilon mixedImg).getD 2 ProjPoint.invalid =
      ProjPoint.invalid :=
  ⟨(invalid_disparity_pixels_marked_invalid zeroQ kWEpsilon mixedImg 0
      (by decide)).1 (by decide),
   (invalid_disparity_pixels_marked_invalid zeroQ kWEpsilon mixedImg 1
      (by decide)).2.1 (-1) (by decide) (by decide),
   (invalid_disparity_pixels_marked_invalid zeroQ kWEpsilon mixedImg 2
      (by decide)).2.2.1 1 (by decide)
      (by norm_num [homogOf, zeroQ, Mat4.mulVec, Vec4.dot, kWEpsilon,
        mixedImg])⟩

/-- Division by a nonzero denominator produces a finite value. -/
theorem fdiv_isFinite (a b : ℚ) (hb : b ≠ 0) : (fdiv a b).isFinite = true := by
  simp [fdiv, hb, FVal.isFinite]

/-- C10: For a camera pair whose baseline (translation magnitude between the
two camera frames) is zero or near zero (at most the nonnegative epsilon),
`getQForCameras` surfaces a precondition violation to the caller; whenever it
does return a matrix, every entry of that matrix is finite — no Infinity or
NaN from the degenerate depth scale. -/
theorem degenerate_baseline_surfaced (T_C1_C0 : Transformation)
    (left_cam_matrix right_cam_matrix : CameraMatrix)
    (full_image_size : Nat × Nat) (baseline_epsilon : ℚ)
    (heps : 0 ≤ baseline_epsilon) :
    (translationMag T_C1_C0.translation ≤ baseline_epsilon →
      getQForCameras T_C1_C0 left_cam_matrix right_cam_matrix full_image_size
        baseline_epsilon = Except.error CalibError.degenerateBaseline) ∧
    (∀ Q, getQForCameras T_C1_C0 left_cam_matrix right_cam_matrix
        full_image_size baseline_epsilon = Except.ok Q →
      Q.allFinite = true) := by
  constructor
  · intro hle
    unfold getQForCameras
    rw [if_pos hle]
  · intro Q hQ
    unfold getQForCameras at hQ
    by_cases hle : translationMag T_C1_C0.translation ≤ baseline_epsilon
    · rw [if_pos hle] at hQ
      exact absurd hQ (by simp)
    · rw [if_neg hle] at hQ
      have hne : translationMag T_C1_C0.translation ≠ 0 := by
        intro h0
        exact hle (by rw [h0]; exact heps)
      injection hQ with hQ2
      subst hQ2
      simp [generateQ, FMat4.allFinite, FVec4.allFinite, FVal.isFinite,
        fdiv, hne]

/-- Witness for C10: the zero-translation pose is rejected as degenerate, and
the matrix returned for a unit-baseline pose is entrywise finite. -/
theorem degenerate_baseline_surfaced_witness :
    getQForCameras degenerateT sampleCam sampleCam (640, 480) 0 =
      Except.error CalibError.degenerateBaseline ∧
    (generateQ 1 320 240 500 500 320 240 500 500).allFinite = true := by
  have hmag0 : translationMag degenerateT.translation ≤ 0 := by
    simp [translationMag, degenerateT]
  have hmag1 : translationMag sampleT.translation = 1 := by
    simp [translationMag, sampleT]
  have hok : getQForCameras sampleT sampleCam sampleCam (640, 480) 0 =
      Except.ok (generateQ 1 320 240 500 500 320 240 500 500) := by
    norm_num [getQForCameras, hmag1, sampleCam]
  exact ⟨(degenerate_baseline_surfaced degenerateT sampleCam sampleCam
      (640, 480) 0 le_rfl).1 hmag0,
    (degenerate_baseline_surfaced sampleT sampleCam sampleCam (640, 480) 0
      le_rfl).2 _ hok⟩

end VolumetricMapping
